import Mathlib

/-
Shallow embedding of the HD44780 GPIO LCD driver (src/hd44780-driver.js).

The driver talks to the GPIO layer (rpio) through three primitives:
`rpio.open` (configure a pin as output), `rpio.write` (drive a level) and
`rpio.usleep` (microsecond sleep).  We model a run of the driver as the
list of these primitive events, in order.  Each method of the class is
embedded as a function from the instance record (and its arguments) to
the list of `_write8Bits` calls it performs, together with the resulting
instance record (to track mutation of instance fields, of which the
source has none outside the constructor); `_write8Bits` itself is
embedded down to the pin-level event list.

JavaScript numbers that the driver shifts and ors are modelled as `Int`
(the relevant JS operators coerce to 32-bit two's complement integers;
all values occurring here are far inside that range).  `(value >> i) & 1`
is `Int.testBit value i` for `i < 32`.
-/

namespace HD44780

/-- Pin level `rpio.LOW`. -/
def LOW : Nat := 0

/-- Pin level `rpio.HIGH`. -/
def HIGH : Nat := 1

namespace command

def CLEARDISPLAY : Int := 0x01

def HOME : Int := 0x02

def ENTRYMODESET : Int := 0x04

def DISPLAYCONTROL : Int := 0x08

def CURSORSHIFT : Int := 0x10

def FUNCTIONSET : Int := 0x20

def SETCGRAMADDR : Int := 0x40

def SETDDRAMADDR : Int := 0x80

end command

namespace entryModeFlags

def ENTRYRIGHT : Int := 0x00

def ENTRYLEFT : Int := 0x02

def ENTRYSHIFTINCREMENT : Int := 0x01

def ENTRYSHIFTDECREMENT : Int := 0x00

end entryModeFlags

namespace controlFlags

def DISPLAYON : Int := 0x04

def DISPLAYOFF : Int := 0x00

def CURSORON : Int := 0x02

def CURSOROFF : Int := 0x00

def BLINKON : Int := 0x01

def BLINKOFF : Int := 0x00

end controlFlags

namespace moveFlags

def DISPLAYMOVE : Int := 0x08

def CURSORMOVE : Int := 0x00

def MOVERIGHT : Int := 0x04

def MOVELEFT : Int := 0x00

end moveFlags

/-- `const ROWOFFSETS = [0x00, 0x40, 0x14, 0x54];` -/
def ROWOFFSETS : List Int := [0x00, 0x40, 0x14, 0x54]

namespace functionSetFlags

def EIGHTBITMODE : Int := 0x10

def FOURBITMODE : Int := 0x00

def TWOLINE : Int := 0x08

def ONELINE : Int := 0x00

def FIVEBYTENDOTS : Int := 0x04

def FIVEBYEIGHTDOTS : Int := 0x00

end functionSetFlags

/-- One primitive GPIO event issued through rpio. -/
inductive Ev where
  | openPin (pin : Nat)
  | write (pin : Nat) (level : Nat)
  | sleep (us : Nat)
deriving DecidableEq

/-- The constructor's `config` argument. -/
structure Config where
  pinRs : Nat
  pinEnable : Nat
  pinsData : List Nat
  lcdColumns : Int
  lcdRows : Int
deriving DecidableEq

/-- The instance fields assigned at the top of the constructor. -/
structure Lcd where
  pinRs : Nat
  pinEnable : Nat
  pinsData : List Nat
  lcdColumns : Int
  lcdRows : Int
deriving DecidableEq

/-- The field assignments `this.pinRs = config.pinRs; ...`. -/
def Lcd.ofConfig (cfg : Config) : Lcd :=
  ⟨cfg.pinRs, cfg.pinEnable, cfg.pinsData, cfg.lcdColumns, cfg.lcdRows⟩

/-- JS `(value >> i) & 1`, used as a pin level (0 or 1). -/
def bit (value : Int) (i : Nat) : Nat :=
  if value.testBit i then 1 else 0

/-- `_pulseEnable()`: enable low, 1 us, high, 1 us, low, 1 us. -/
def pulseEnable (lcd : Lcd) : List Ev :=
  [Ev.write lcd.pinEnable LOW, Ev.sleep 1,
   Ev.write lcd.pinEnable HIGH, Ev.sleep 1,
   Ev.write lcd.pinEnable LOW, Ev.sleep 1]

/-- `_write8Bits(value, registerSelect=false, writeWait=50, initWait=0)`.
`this.pinsData[i]` is modelled with `getD i 0`; every configuration
considered below has the 4-element data-pin list the driver indexes.
`if (initWait)` is JS truthiness: taken exactly when `initWait ≠ 0`. -/
def write8Bits (lcd : Lcd) (value : Int) (registerSelect : Bool)
    (writeWait : Nat) (initWait : Nat) : List Ev :=
  [Ev.sleep writeWait]
    ++ [Ev.write lcd.pinRs (if registerSelect then HIGH else LOW)]
    ++ (List.range 4).map (fun i => Ev.write (lcd.pinsData.getD i 0) (bit value (i + 4)))
    ++ pulseEnable lcd
    ++ (if initWait ≠ 0 then [Ev.sleep initWait] else [])
    ++ (List.range 4).map (fun i => Ev.write (lcd.pinsData.getD i 0) (bit value i))
    ++ pulseEnable lcd

/-- One `_write8Bits` call: its argument tuple. -/
structure W8 where
  value : Int
  registerSelect : Bool
  writeWait : Nat
  initWait : Nat
deriving DecidableEq

/-- Expand a `_write8Bits` call to its pin-level events. -/
def w8trace (lcd : Lcd) (w : W8) : List Ev :=
  write8Bits lcd w.value w.registerSelect w.writeWait w.initWait

/-- `clear()`: one `_write8Bits(command.CLEARDISPLAY)` call with default
arguments; the instance is returned to record that no field is assigned. -/
def clearM (lcd : Lcd) : List W8 × Lcd :=
  ([⟨command.CLEARDISPLAY, false, 50, 0⟩], lcd)

/-- `const r = row > this.lcdRows - 1 ? this.lcdRows - 1 : row;` -/
def clampedRow (lcd : Lcd) (row : Int) : Int :=
  if row > lcd.lcdRows - 1 then lcd.lcdRows - 1 else row

/-- JS `ROWOFFSETS[r]`: `some` entry for `r` in bounds, `none` (JS
`undefined`) for a negative or too-large index. -/
def rowOffsetAt (r : Int) : Option Int :=
  if 0 ≤ r then ROWOFFSETS.get? r.toNat else none

/-- `setCursor(col, row)`.  For an in-bounds clamped row the value written
is `command.SETDDRAMADDR | (col + ROWOFFSETS[r])`.  When `ROWOFFSETS[r]`
is `undefined` (negative clamped row), `col + undefined` is JS `NaN`, and
`0x80 | NaN` coerces `NaN` to 0, so the value is `0x80` itself. -/
def setCursorM (lcd : Lcd) (col row : Int) : List W8 × Lcd :=
  let r := clampedRow lcd row
  let v : Int :=
    match rowOffsetAt r with
    | some off => Int.lor command.SETDDRAMADDR (col + off)
    | none => command.SETDDRAMADDR
  ([⟨v, false, 50, 0⟩], lcd)

/-- A call made by `print`'s character loop: either
`this._write8Bits(char.charCodeAt(0), true)` or `this.setCursor(0, row)`. -/
inductive PrintAct where
  | putChar (c : Char)
  | setCur (col row : Int)
deriving DecidableEq

/-- The body of `print`: `var row = 0;` then for each character, on `'\n'`
increment `row` and call `setCursor(0, row)`, otherwise write the
character code in data mode. -/
def printActions (row : Int) : List Char → List PrintAct
  | [] => []
  | c :: cs =>
    if c = '\n' then
      PrintAct.setCur 0 (row + 1) :: printActions (row + 1) cs
    else
      PrintAct.putChar c :: printActions row cs

/-- JS `char.charCodeAt(0)` on the one-code-point string produced by
`Array.from`: the first UTF-16 code unit.  For a character below
U+10000 this is the code point itself; for an astral character it is
the high surrogate `0xD800 + ((cp - 0x10000) >> 10)`. -/
def charCodeAt0 (c : Char) : Nat :=
  if c.toNat < 0x10000 then c.toNat
  else 0xD800 + (c.toNat - 0x10000) / 1024

/-- Interpret one `print` loop call as the method it invokes. -/
def runAct (lcd : Lcd) : PrintAct → List W8 × Lcd
  | PrintAct.putChar c => ([⟨(charCodeAt0 c : Int), true, 50, 0⟩], lcd)
  | PrintAct.setCur col row => setCursorM lcd col row

/-- Sequence the calls of `print`, threading the instance through. -/
def runActs (lcd : Lcd) : List PrintAct → List W8 × Lcd
  | [] => ([], lcd)
  | a :: as =>
    let r := runAct lcd a
    let r2 := runActs r.2 as
    (r.1 ++ r2.1, r2.2)

/-- `print(str)`. -/
def printM (lcd : Lcd) (s : List Char) : List W8 × Lcd :=
  runActs lcd (printActions 0 s)

/-- The `_write8Bits` calls the constructor makes after pin setup:
`0x33` and `0x32` (reset sequence), display control, function set,
entry mode set, then `this.clear()`. -/
def constructorW8 (lcd : Lcd) : List W8 :=
  [⟨0x33, false, 1, 4100⟩,
   ⟨0x32, false, 1, 100⟩,
   ⟨Int.lor (Int.lor (Int.lor command.DISPLAYCONTROL controlFlags.DISPLAYON)
      controlFlags.CURSOROFF) controlFlags.BLINKOFF, false, 50, 0⟩,
   ⟨Int.lor (Int.lor (Int.lor command.FUNCTIONSET functionSetFlags.FOURBITMODE)
      functionSetFlags.TWOLINE) functionSetFlags.FIVEBYEIGHTDOTS, false, 50, 0⟩,
   ⟨Int.lor (Int.lor command.ENTRYMODESET entryModeFlags.ENTRYLEFT)
      entryModeFlags.ENTRYSHIFTDECREMENT, false, 50, 0⟩]
    ++ (clearM lcd).1

/-- The pins the constructor passes to `rpio.open`, in call order:
register select, enable, then the data pins. -/
def Config.openList (cfg : Config) : List Nat :=
  cfg.pinRs :: cfg.pinEnable :: cfg.pinsData

/-- Run the constructor's `rpio.open` calls against a GPIO layer in which
`ok p` says whether opening pin `p` succeeds.  A failing `rpio.open`
throws, so the sequence stops at the first failure; the flag records
whether all opens completed. -/
def runOpens (ok : Nat → Bool) : List Nat → List Ev × Bool
  | [] => ([], true)
  | p :: ps =>
    if ok p then
      let r := runOpens ok ps
      (Ev.openPin p :: r.1, r.2)
    else
      ([], false)

/-- The whole constructor: field assignment, the six `rpio.open` calls,
then (only if no open threw — an exception propagates out of the
constructor) the initialization writes.  Returns the event trace and
whether construction completed. -/
def constructorRun (cfg : Config) (ok : Nat → Bool) : List Ev × Bool :=
  let lcd := Lcd.ofConfig cfg
  let o := runOpens ok cfg.openList
  if o.2 then
    (o.1 ++ (constructorW8 lcd).flatMap (w8trace lcd), true)
  else
    (o.1, false)

/-- Whether an event is an instruction-level action (a digital write or a
sleep) rather than pin configuration. -/
def isInstr : Ev → Bool
  | Ev.openPin _ => false
  | Ev.write _ _ => true
  | Ev.sleep _ => true

/-- A concrete well-formed configuration used to instantiate theorems. -/
def cfg0 : Config :=
  ⟨7, 8, [25, 24, 23, 18], 16, 2⟩

/-- The instance built from `cfg0`. -/
def lcd0 : Lcd :=
  Lcd.ofConfig cfg0

/-! Helper lemmas. -/

theorem runOpens_ok (ok : Nat → Bool) :
    ∀ l : List Nat, (∀ p ∈ l, ok p = true) → runOpens ok l = (l.map Ev.openPin, true)
  | [], _ => rfl
  | p :: ps, h => by
    have hp : ok p = true := h p (List.mem_cons_self p ps)
    have ih := runOpens_ok ok ps (fun q hq => h q (List.mem_cons_of_mem p hq))
    simp [runOpens, hp, ih]

theorem runOpens_fail (ok : Nat → Bool) :
    ∀ l : List Nat, (∃ p ∈ l, ok p = false) → (runOpens ok l).2 = false
  | p :: ps, h => by
    by_cases hp : ok p
    · rcases h with ⟨q, hq, hqf⟩
      rcases List.mem_cons.mp hq with rfl | hq2
      · simp [hp] at hqf
      · have ih := runOpens_fail ok ps ⟨q, hq2, hqf⟩
        simp [runOpens, hp, ih]
    · simp [runOpens, hp]

theorem runOpens_opens (ok : Nat → Bool) :
    ∀ l : List Nat, ∀ e ∈ (runOpens ok l).1, isInstr e = false
  | p :: ps, e, he => by
    by_cases hp : ok p
    · simp [runOpens, hp] at he
      rcases he with rfl | he2
      · rfl
      · exact runOpens_opens ok ps e he2
    · simp [runOpens, hp] at he

theorem runActs_state (lcd : Lcd) :
    ∀ acts : List PrintAct, (runActs lcd acts).2 = lcd
  | [] => rfl
  | a :: as => by
    have hs : (runAct lcd a).2 = lcd := by cases a <;> rfl
    show (runActs (runAct lcd a).2 as).2 = lcd
    rw [hs]
    exact runActs_state lcd as

theorem runActs_defaults (lcd : Lcd) :
    ∀ acts : List PrintAct,
      ((runActs lcd acts).1).all (fun w => w.writeWait == 50 && w.initWait == 0) = true
  | [] => rfl
  | a :: as => by
    have h1 : ((runAct lcd a).1).all (fun w => w.writeWait == 50 && w.initWait == 0) = true := by
      cases a <;> rfl
    have ih := runActs_defaults (runAct lcd a).2 as
    simp only [runActs, List.all_append, Bool.and_eq_true]
    exact ⟨h1, ih⟩

theorem w8trace_value_congr (lcd : Lcd) (v1 v2 : Int) (rs : Bool) (w iw : Nat)
    (h : ∀ i, i < 8 → bit v1 i = bit v2 i) :
    write8Bits lcd v1 rs w iw = write8Bits lcd v2 rs w iw := by
  have h1 : (List.range 4).map (fun i => Ev.write (lcd.pinsData.getD i 0) (bit v1 (i + 4)))
      = (List.range 4).map (fun i => Ev.write (lcd.pinsData.getD i 0) (bit v2 (i + 4))) := by
    apply List.map_congr_left
    intro a ha
    rw [h (a + 4) (by simpa using Nat.add_lt_add_right (List.mem_range.mp ha) 4)]
  have h2 : (List.range 4).map (fun i => Ev.write (lcd.pinsData.getD i 0) (bit v1 i))
      = (List.range 4).map (fun i => Ev.write (lcd.pinsData.getD i 0) (bit v2 i)) := by
    apply List.map_congr_left
    intro a ha
    rw [h a (by have := List.mem_range.mp ha; omega)]
  simp only [write8Bits, h1, h2]

/-! The claims. -/

/-- Claim C1: for every 8-bit value and register-select flag, `_write8Bits`
decomposes the value into exactly two sequential 4-bit nibble writes, high
nibble (bits 4-7) first and low nibble (bits 0-3) second, with data pin
`i` driven with bit `i + 4` in the high-nibble phase and bit `i` in the
low-nibble phase, and each nibble write followed by exactly one enable
pulse that drives enable low, sleeps 1 us, drives it high, sleeps 1 us,
drives it low and sleeps 1 us.  (The optional extra sleep between the two
halves is present exactly when a nonzero `initWait` was passed.) -/
theorem write8Bits_two_nibble_transfer (lcd : Lcd) (value : Int) (rs : Bool) (w iw : Nat) :
    write8Bits lcd value rs w iw =
      [Ev.sleep w,
       Ev.write lcd.pinRs (if rs then HIGH else LOW),
       Ev.write (lcd.pinsData.getD 0 0) (bit value 4),
       Ev.write (lcd.pinsData.getD 1 0) (bit value 5),
       Ev.write (lcd.pinsData.getD 2 0) (bit value 6),
       Ev.write (lcd.pinsData.getD 3 0) (bit value 7),
       Ev.write lcd.pinEnable LOW, Ev.sleep 1,
       Ev.write lcd.pinEnable HIGH, Ev.sleep 1,
       Ev.write lcd.pinEnable LOW, Ev.sleep 1]
      ++ (if iw ≠ 0 then [Ev.sleep iw] else [])
      ++ [Ev.write (lcd.pinsData.getD 0 0) (bit value 0),
          Ev.write (lcd.pinsData.getD 1 0) (bit value 1),
          Ev.write (lcd.pinsData.getD 2 0) (bit value 2),
          Ev.write (lcd.pinsData.getD 3 0) (bit value 3),
          Ev.write lcd.pinEnable LOW, Ev.sleep 1,
          Ev.write lcd.pinEnable HIGH, Ev.sleep 1,
          Ev.write lcd.pinEnable LOW, Ev.sleep 1] := by
  by_cases h : iw = 0 <;> simp [write8Bits, pulseEnable, h, List.range_succ]

/-- Claim C2 (counterexample): the claim says construction issues exactly
5 composed instructions plus the 2 raw initialization writes, i.e. 7
`_write8Bits` calls in total; on the concrete valid configuration `cfg0`
the constructor in fact makes 6 such calls (2 raw plus 4 composed). -/
theorem constructor_write_count_cex :
    (constructorW8 (Lcd.ofConfig cfg0)).length = 6 ∧ (6 : Nat) ≠ 2 + 5 := by
  decide

/-- Claim C2 (amended): for every valid configuration (4 distinct data
pins, rows in 1..4, columns ≥ 1) whose pins all open successfully,
construction issues exactly 4 composed instructions plus the 2 raw
initialization writes (0x33 then 0x32 in command mode), in the fixed
order raw 0x33, raw 0x32, display control, function set, entry mode set,
then the clear instruction, before returning. -/
theorem constructor_init_sequence (cfg : Config) (ok : Nat → Bool)
    (hpins : cfg.pinsData.length = 4)
    (hnodup : cfg.openList.Nodup)
    (hrows1 : 1 ≤ cfg.lcdRows) (hrows4 : cfg.lcdRows ≤ 4)
    (hcols : 1 ≤ cfg.lcdColumns)
    (hok : ∀ p ∈ cfg.openList, ok p = true) :
    constructorW8 (Lcd.ofConfig cfg) =
      [⟨0x33, false, 1, 4100⟩,
       ⟨0x32, false, 1, 100⟩,
       ⟨Int.lor (Int.lor (Int.lor command.DISPLAYCONTROL controlFlags.DISPLAYON)
          controlFlags.CURSOROFF) controlFlags.BLINKOFF, false, 50, 0⟩,
       ⟨Int.lor (Int.lor (Int.lor command.FUNCTIONSET functionSetFlags.FOURBITMODE)
          functionSetFlags.TWOLINE) functionSetFlags.FIVEBYEIGHTDOTS, false, 50, 0⟩,
       ⟨Int.lor (Int.lor command.ENTRYMODESET entryModeFlags.ENTRYLEFT)
          entryModeFlags.ENTRYSHIFTDECREMENT, false, 50, 0⟩,
       ⟨command.CLEARDISPLAY, false, 50, 0⟩] ∧
    ((constructorW8 (Lcd.ofConfig cfg)).drop 2).length = 4 ∧
    (constructorRun cfg ok).2 = true ∧
    (constructorRun cfg ok).1 =
      cfg.openList.map Ev.openPin
        ++ (constructorW8 (Lcd.ofConfig cfg)).flatMap (w8trace (Lcd.ofConfig cfg)) := by
  have h := runOpens_ok ok cfg.openList hok
  refine ⟨rfl, rfl, ?_, ?_⟩ <;> simp [constructorRun, h]

/-- Claim C2 witness: the amended theorem instantiated at the concrete
configuration `cfg0` with a GPIO layer where every open succeeds. -/
theorem constructor_init_sequence_witness :
    cfg0.pinsData.length = 4 ∧ cfg0.openList.Nodup ∧ (1 : Int) ≤ cfg0.lcdRows ∧
    cfg0.lcdRows ≤ 4 ∧ (1 : Int) ≤ cfg0.lcdColumns ∧
    (constructorRun cfg0 (fun _ => true)).2 = true :=
  ⟨by decide, by decide, by decide, by decide, by decide,
   (constructor_init_sequence cfg0 (fun _ => true) (by decide) (by decide) (by decide)
     (by decide) (by decide) (by decide)).2.2.1⟩

/-- Claim C3: `print` writes each non-newline character as a data-mode
write at the current position and translates each newline into a call to
`setCursor(0, currentRow + 1)` with `currentRow` a per-call counter
starting at 0; newlines accumulate without clamping by `print` itself
(the third segment of a two-newline string goes to `setCursor` with row
index 2, independent of the configured row count), and in particular
`print("AB\nCD")` is: write 'A', write 'B', `setCursor(0,1)`, write 'C',
write 'D'. -/
theorem print_newline_translation (lcd : Lcd) :
    (printM lcd ['A', 'B', '\n', 'C', 'D']).1 =
      [⟨('A'.toNat : Int), true, 50, 0⟩, ⟨('B'.toNat : Int), true, 50, 0⟩]
        ++ (setCursorM lcd 0 1).1
        ++ [⟨('C'.toNat : Int), true, 50, 0⟩, ⟨('D'.toNat : Int), true, 50, 0⟩] ∧
    printActions 0 ['A', '\n', 'B', '\n', 'C'] =
      [PrintAct.putChar 'A', PrintAct.setCur 0 1, PrintAct.putChar 'B',
       PrintAct.setCur 0 2, PrintAct.putChar 'C'] ∧
    (∀ (row : Int) (cs : List Char),
      printActions row ('\n' :: cs) = PrintAct.setCur 0 (row + 1) :: printActions (row + 1) cs) ∧
    (∀ (row : Int) (c : Char) (cs : List Char), c ≠ '\n' →
      printActions row (c :: cs) = PrintAct.putChar c :: printActions row cs) := by
  refine ⟨?_, rfl, ?_, ?_⟩
  · simp [printM, printActions, runActs, runAct]
    decide
  · intro row cs
    simp [printActions]
  · intro row c cs hc
    simp [printActions, hc]

/-- Claim C3 witness: the newline-free case of the translation at a
concrete character. -/
theorem print_newline_translation_witness :
    printActions 0 ['X'] = [PrintAct.putChar 'X'] :=
  (print_newline_translation lcd0).2.2.2 0 'X' [] (by decide)

/-- Claim C4: for every column and every row at or beyond the configured
row count, `setCursor(col, row)` is equivalent to
`setCursor(col, configuredRows - 1)`; negative rows are not clamped and
pass through the clamp unchanged. -/
theorem setCursor_row_clamp (lcd : Lcd) (col row : Int) (hrow : lcd.lcdRows ≤ row) :
    setCursorM lcd col row = setCursorM lcd col (lcd.lcdRows - 1) ∧
    (∀ r : Int, r < 0 → 1 ≤ lcd.lcdRows → clampedRow lcd r = r) := by
  constructor
  · have h1 : clampedRow lcd row = lcd.lcdRows - 1 := by
      simp only [clampedRow, if_pos (by omega : row > lcd.lcdRows - 1)]
    have h2 : clampedRow lcd (lcd.lcdRows - 1) = lcd.lcdRows - 1 := by
      simp only [clampedRow, if_neg (by omega : ¬ lcd.lcdRows - 1 > lcd.lcdRows - 1)]
    simp [setCursorM, h1, h2]
  · intro r hr hrows
    simp only [clampedRow, if_neg (by omega : ¬ r > lcd.lcdRows - 1)]

/-- Claim C4 witness: on the 2-row `lcd0`, `setCursor(3, 5)` equals
`setCursor(3, 1)`. -/
theorem setCursor_row_clamp_witness :
    lcd0.lcdRows ≤ 5 ∧ setCursorM lcd0 3 5 = setCursorM lcd0 3 (lcd0.lcdRows - 1) :=
  ⟨by decide, (setCursor_row_clamp lcd0 3 5 (by decide)).1⟩

/-- Claim C5: for every `col ≥ 0` and clamped row in 0..3, `setCursor`
computes the target address as `col + ROWOFFSETS[row]`, with the row
offset table exactly `[0x00, 0x40, 0x14, 0x54]`, and sends it as a single
`SETDDRAMADDR` (0x80) instruction. -/
theorem setCursor_address_table (lcd : Lcd) (col row : Int)
    (hc : 0 ≤ col) (h0 : 0 ≤ row) (hle : row ≤ lcd.lcdRows - 1) (h4 : row < 4) :
    (setCursorM lcd col row).1 =
      [⟨Int.lor command.SETDDRAMADDR (col + ROWOFFSETS.getD row.toNat 0), false, 50, 0⟩] ∧
    ROWOFFSETS = [0x00, 0x40, 0x14, 0x54] ∧
    command.SETDDRAMADDR = 0x80 := by
  refine ⟨?_, rfl, rfl⟩
  have hcl : clampedRow lcd row = row := by
    simp only [clampedRow, if_neg (by omega : ¬ row > lcd.lcdRows - 1)]
  have hro : rowOffsetAt row = some (ROWOFFSETS.getD row.toNat 0) := by
    have : row = 0 ∨ row = 1 ∨ row = 2 ∨ row = 3 := by omega
    rcases this with rfl | rfl | rfl | rfl <;> rfl
  simp [setCursorM, hcl, hro]

/-- Claim C5 witness: on `lcd0`, `setCursor(3, 1)` writes the single
instruction `0x80 | (3 + 0x40)`. -/
theorem setCursor_address_table_witness :
    (0 : Int) ≤ 3 ∧ (0 : Int) ≤ 1 ∧ (1 : Int) ≤ lcd0.lcdRows - 1 ∧ (1 : Int) < 4 ∧
    (setCursorM lcd0 3 1).1 =
      [⟨Int.lor command.SETDDRAMADDR (3 + ROWOFFSETS.getD (1 : Int).toNat 0), false, 50, 0⟩] :=
  ⟨by decide, by decide, by decide, by decide,
   (setCursor_address_table lcd0 3 1 (by decide) (by decide) (by decide) (by decide)).1⟩

/-- Claim C6: the two raw initialization writes (0x33 and 0x32) carry extra
inter-nibble delays of exactly 4100 and 100 microseconds between their two
nibble halves (the extra sleep sits between the first enable pulse and the
low-nibble writes), and every other write — the remaining constructor
writes and everything issued by `clear`, `setCursor` and `print` — uses
the default pre-write spacing of 50 microseconds with no extra
inter-nibble delay. -/
theorem write_delay_discipline (lcd : Lcd) (s : List Char) (col row : Int) :
    constructorW8 lcd =
      ⟨0x33, false, 1, 4100⟩ :: ⟨0x32, false, 1, 100⟩ :: (constructorW8 lcd).drop 2 ∧
    ((constructorW8 lcd).drop 2).all (fun w => w.writeWait == 50 && w.initWait == 0) = true ∧
    ((clearM lcd).1).all (fun w => w.writeWait == 50 && w.initWait == 0) = true ∧
    ((setCursorM lcd col row).1).all (fun w => w.writeWait == 50 && w.initWait == 0) = true ∧
    ((printM lcd s).1).all (fun w => w.writeWait == 50 && w.initWait == 0) = true ∧
    w8trace lcd ⟨0x33, false, 1, 4100⟩ =
      [Ev.sleep 1, Ev.write lcd.pinRs LOW,
       Ev.write (lcd.pinsData.getD 0 0) 1, Ev.write (lcd.pinsData.getD 1 0) 1,
       Ev.write (lcd.pinsData.getD 2 0) 0, Ev.write (lcd.pinsData.getD 3 0) 0,
       Ev.write lcd.pinEnable LOW, Ev.sleep 1, Ev.write lcd.pinEnable HIGH, Ev.sleep 1,
       Ev.write lcd.pinEnable LOW, Ev.sleep 1,
       Ev.sleep 4100,
       Ev.write (lcd.pinsData.getD 0 0) 1, Ev.write (lcd.pinsData.getD 1 0) 1,
       Ev.write (lcd.pinsData.getD 2 0) 0, Ev.write (lcd.pinsData.getD 3 0) 0,
       Ev.write lcd.pinEnable LOW, Ev.sleep 1, Ev.write lcd.pinEnable HIGH, Ev.sleep 1,
       Ev.write lcd.pinEnable LOW, Ev.sleep 1] ∧
    w8trace lcd ⟨0x32, false, 1, 100⟩ =
      [Ev.sleep 1, Ev.write lcd.pinRs LOW,
       Ev.write (lcd.pinsData.getD 0 0) 1, Ev.write (lcd.pinsData.getD 1 0) 1,
       Ev.write (lcd.pinsData.getD 2 0) 0, Ev.write (lcd.pinsData.getD 3 0) 0,
       Ev.write lcd.pinEnable LOW, Ev.sleep 1, Ev.write lcd.pinEnable HIGH, Ev.sleep 1,
       Ev.write lcd.pinEnable LOW, Ev.sleep 1,
       Ev.sleep 100,
       Ev.write (lcd.pinsData.getD 0 0) 0, Ev.write (lcd.pinsData.getD 1 0) 1,
       Ev.write (lcd.pinsData.getD 2 0) 0, Ev.write (lcd.pinsData.getD 3 0) 0,
       Ev.write lcd.pinEnable LOW, Ev.sleep 1, Ev.write lcd.pinEnable HIGH, Ev.sleep 1,
       Ev.write lcd.pinEnable LOW, Ev.sleep 1] :=
  ⟨rfl, rfl, rfl, rfl, runActs_defaults lcd (printActions 0 s), rfl, rfl⟩

/-- Claim C7 (counterexample): the claim says a malformed configuration
(here a non-positive row count, 0) is rejected before any hardware write;
in fact construction with `lcdRows = 0` and valid pins completes and
issues hardware writes (the register-select pin 7 is driven low by the
first instruction write). -/
theorem constructor_no_validation_cex :
    (constructorRun ⟨7, 8, [25, 24, 23, 18], 16, 0⟩ (fun _ => true)).2 = true ∧
    Ev.write 7 LOW ∈ (constructorRun ⟨7, 8, [25, 24, 23, 18], 16, 0⟩ (fun _ => true)).1 := by
  decide

/-- Claim C7 (amended): construction performs no validation of the
row/column geometry: the constructor's behaviour (trace and outcome) is
identical for any geometry values, so non-positive geometry is accepted
rather than rejected.  Missing or invalid pin identifiers surface only
through the GPIO layer's pin-setup failures, which happen before any
instruction write (see C8). -/
theorem constructor_geometry_ignored (pinRs pinEnable : Nat) (pinsData : List Nat)
    (cols1 cols2 rows1 rows2 : Int) (ok : Nat → Bool) :
    constructorRun ⟨pinRs, pinEnable, pinsData, cols1, rows1⟩ ok
      = constructorRun ⟨pinRs, pinEnable, pinsData, cols2, rows2⟩ ok := rfl

/-- Claim C8: if any `rpio.open` call during pin setup fails, construction
aborts (the exception propagates) and no instruction writes — no digital
writes and no sleeps, hence neither raw initialization writes nor composed
instructions — appear in the trace. -/
theorem constructor_abort_on_open_failure (cfg : Config) (ok : Nat → Bool)
    (hfail : ∃ p ∈ cfg.openList, ok p = false) :
    (constructorRun cfg ok).2 = false ∧
    ∀ e ∈ (constructorRun cfg ok).1, isInstr e = false := by
  have h2 := runOpens_fail ok cfg.openList hfail
  constructor
  · simp [constructorRun, h2]
  · intro e he
    simp only [constructorRun, h2, Bool.false_eq_true, if_false] at he
    exact runOpens_opens ok cfg.openList e he

/-- Claim C8 witness: with a GPIO layer on which opening pin 8 (the enable
pin of `cfg0`) fails, construction does not complete. -/
theorem constructor_abort_on_open_failure_witness :
    (∃ p ∈ cfg0.openList, (fun p => !(p == 8)) p = false) ∧
    (constructorRun cfg0 (fun p => !(p == 8))).2 = false :=
  ⟨by decide, (constructor_abort_on_open_failure cfg0 (fun p => !(p == 8)) (by decide)).1⟩

/-- Claim C9 (counterexample): the claim says the data-pin levels depend
only on the character's ordinal modulo 256.  The characters U+10000 and
U+10400 have equal ordinals modulo 256 (both 0), yet `print` sends
`charCodeAt(0)` — the high surrogates 0xD800 and 0xD801 respectively —
so the pin-level traces differ (data pin 0 is driven with bit 0, which
differs between 0xD800 and 0xD801). -/
theorem print_char_code_mod256_cex :
    (Char.ofNat 0x10000).toNat % 256 = (Char.ofNat 0x10400).toNat % 256 ∧
    (printM lcd0 [Char.ofNat 0x10000]).1.flatMap (w8trace lcd0) ≠
      (printM lcd0 [Char.ofNat 0x10400]).1.flatMap (w8trace lcd0) := by
  decide

/-- Claim C9 (amended): each non-newline character printed is sent as one
data-mode write (register select high) of its first UTF-16 code unit —
the ordinal character code itself for characters below U+10000, the high
surrogate for astral characters — and the resulting pin-level trace
depends only on the low 8 bits of that code unit: the trace for code
unit `u` equals the trace for `u % 256`, with no validation or remapping
by the driver. -/
theorem print_char_code_unit_mod256 (lcd : Lcd) (c : Char) (hc : c ≠ '\n') :
    (printM lcd [c]).1 = [⟨(charCodeAt0 c : Int), true, 50, 0⟩] ∧
    (c.toNat < 0x10000 → charCodeAt0 c = c.toNat) ∧
    w8trace lcd ⟨(charCodeAt0 c : Int), true, 50, 0⟩ =
      w8trace lcd ⟨((charCodeAt0 c % 256 : Nat) : Int), true, 50, 0⟩ := by
  refine ⟨?_, ?_, ?_⟩
  · simp [printM, printActions, hc, runActs, runAct]
  · intro hbmp
    simp [charCodeAt0, hbmp]
  · show write8Bits lcd (charCodeAt0 c : Int) true 50 0
      = write8Bits lcd ((charCodeAt0 c % 256 : Nat) : Int) true 50 0
    apply w8trace_value_congr
    intro i hi
    have ht : Int.testBit ((charCodeAt0 c : Nat) : Int) i
        = Int.testBit ((charCodeAt0 c % 256 : Nat) : Int) i := by
      show Nat.testBit (charCodeAt0 c) i = Nat.testBit (charCodeAt0 c % 256) i
      have h256 : (256 : Nat) = 2 ^ 8 := by norm_num
      rw [h256, Nat.testBit_mod_two_pow]
      simp [hi]
    simp only [bit, ht]

/-- Claim C9 witness: the character with code 256 (`Ā`, below U+10000) is
sent as a data-mode write of its code unit, which equals its ordinal. -/
theorem print_char_code_unit_mod256_witness :
    Char.ofNat 256 ≠ '\n' ∧
    (printM lcd0 [Char.ofNat 256]).1 = [⟨(charCodeAt0 (Char.ofNat 256) : Int), true, 50, 0⟩] :=
  ⟨by decide, (print_char_code_unit_mod256 lcd0 (Char.ofNat 256) (by decide)).1⟩

/-- Claim C10: every public operation — `clear`, `print` on any string,
`setCursor` with any arguments — leaves all instance fields (register
select pin, enable pin, data pins, columns, rows) unchanged. -/
theorem public_ops_preserve_fields (lcd : Lcd) (s : List Char) (col row : Int) :
    (clearM lcd).2 = lcd ∧ (printM lcd s).2 = lcd ∧ (setCursorM lcd col row).2 = lcd :=
  ⟨rfl, runActs_state lcd (printActions 0 s), rfl⟩

end HD44780
